import Mathlib

/-!
Shallow embedding of `setup_gui.py` (lustylibrary-installer), a Flask
single-page setup form.  Python `dict` configuration documents become Lean
structures; the YAML-backed config file becomes an `Option` over a partial
document (YAML (de)serialization itself is an external library modelled as
the identity on structured documents); text configuration files rewritten
line-by-line are modelled as `List Char` (a Python `str`); external process
invocations (`subprocess.run` with `check=False` wrapped in `try/except`)
become an outcome parameter the handlers never inspect.
-/

/-! ## Data model: the Settings Document (`DEFAULT_CONFIG`, lines 12-31) -/

structure WifiCfg where
  ssid : String
  password : String
  ip : String
deriving DecidableEq, Repr

structure StorageCfg where
  media_root : String
deriving DecidableEq, Repr

structure AppsCfg where
  install_audiobookshelf : Bool
  install_calibre_web : Bool
deriving DecidableEq, Repr

structure SyncCfg where
  enable_sync : Bool
  unraid_ip : String
  share_path_audio : String
  share_path_books : String
deriving DecidableEq, Repr

structure Config where
  wifi : WifiCfg
  storage : StorageCfg
  apps : AppsCfg
  sync : SyncCfg
deriving DecidableEq, Repr

/-- `DEFAULT_CONFIG` (setup_gui.py lines 12-31). -/
def DEFAULT_CONFIG : Config :=
  { wifi := { ssid := "LustyLibrary", password := "lustybooks123", ip := "10.10.10.10" }
    storage := { media_root := "/mnt/media" }
    apps := { install_audiobookshelf := true, install_calibre_web := true }
    sync := { enable_sync := false, unraid_ip := "192.168.0.139",
              share_path_audio := "/data/media/audiobook",
              share_path_books := "/data/media/calibre" } }

/-- A document as parsed back from the YAML file: `yaml.safe_load` returns
whatever mapping the file holds, so any of the four sections may be absent. -/
structure PartialConfig where
  wifi : Option WifiCfg
  storage : Option StorageCfg
  apps : Option AppsCfg
  sync : Option SyncCfg
deriving DecidableEq, Repr

/-- Serialization of a full document, as `yaml.safe_dump` stores it:
all four sections present. -/
def toPartial (c : Config) : PartialConfig :=
  { wifi := some c.wifi, storage := some c.storage,
    apps := some c.apps, sync := some c.sync }

/-- All four sections present (the spec's "document always has all four
sections populated" invariant). -/
def fully_populated (d : PartialConfig) : Bool :=
  d.wifi.isSome && d.storage.isSome && d.apps.isSome && d.sync.isSome

/-- Recover a full document from a partial one; `none` is Python's
`KeyError` when the handler indexes a missing section. -/
def getFull (d : PartialConfig) : Option Config :=
  match d.wifi, d.storage, d.apps, d.sync with
  | some w, some s, some a, some y => some { wifi := w, storage := s, apps := a, sync := y }
  | _, _, _, _ => none

/-! ## Config Store (`load_config` / `save_config`, lines 33-42)

The backing file `/opt/lustylibrary-installer/config.yml` is modelled by its
content, `Option PartialConfig` (`none` = file absent). -/

/-- `load_config` (lines 33-37): return the parsed file content as-is when
the file exists, else `DEFAULT_CONFIG.copy()`.  No backfilling of sections
happens on the file branch. -/
def load_config (file : Option PartialConfig) : PartialConfig :=
  match file with
  | some d => d
  | none => toPartial DEFAULT_CONFIG

/-- `save_config` (lines 39-42): serialize the full document over the file. -/
def save_config_file (cfg : Config) : PartialConfig :=
  toPartial cfg

/-! ## Form submissions and the POST-body merge (lines 352-369)

`request.form` is modelled as an association list; `form.get(k, "")` takes the
first binding of `k` or the default, and `k in request.form` is key presence. -/

def Form : Type := List (String × String)

def formGet (form : Form) (k : String) : String :=
  match List.find? (fun p => p.1 == k) form with
  | some p => p.2
  | none => ""

def formHas (form : Form) (k : String) : Bool :=
  (List.find? (fun p => p.1 == k) form).isSome

/-- Python's `a or b` on strings: `b` when `a` is falsy (empty), else `a`. -/
def pyStrOr (a b : String) : String :=
  if a = "" then b else a

/-- Python `str.strip()`: drop whitespace from both ends (kernel-computable,
unlike `String.trim`). -/
def py_strip (s : String) : String :=
  String.mk ((s.data.dropWhile Char.isWhitespace).reverse.dropWhile Char.isWhitespace).reverse

/-- Lines 354-356: `cfg["wifi"][k] = request.form.get(k, "").strip() or cfg["wifi"][k]`. -/
def merge_wifi (w : WifiCfg) (form : Form) : WifiCfg :=
  { ssid := pyStrOr (py_strip (formGet form "wifi_ssid")) w.ssid
    password := pyStrOr (py_strip (formGet form "wifi_password")) w.password
    ip := pyStrOr (py_strip (formGet form "wifi_ip")) w.ip }

/-- Line 359. -/
def merge_storage (s : StorageCfg) (form : Form) : StorageCfg :=
  { media_root := pyStrOr (py_strip (formGet form "media_root")) s.media_root }

/-- Lines 362-363: checkbox flags are key-presence tests. -/
def merge_apps (_ : AppsCfg) (form : Form) : AppsCfg :=
  { install_audiobookshelf := formHas form "install_audiobookshelf"
    install_calibre_web := formHas form "install_calibre_web" }

/-- Lines 366-369. -/
def merge_sync (y : SyncCfg) (form : Form) : SyncCfg :=
  { enable_sync := formHas form "enable_sync"
    unraid_ip := pyStrOr (py_strip (formGet form "unraid_ip")) y.unraid_ip
    share_path_audio := pyStrOr (py_strip (formGet form "share_path_audio")) y.share_path_audio
    share_path_books := pyStrOr (py_strip (formGet form "share_path_books")) y.share_path_books }

/-- The whole POST-body overlay (lines 352-369) as a value-level function. -/
def merge_form (cfg : Config) (form : Form) : Config :=
  { wifi := merge_wifi cfg.wifi form
    storage := merge_storage cfg.storage form
    apps := merge_apps cfg.apps form
    sync := merge_sync cfg.sync form }

/-! ## Claims C4, C5, C8 -/

/-- A persisted file missing its `sync` section, used to refute the backfill
invariant. -/
def pcMissingSync : PartialConfig :=
  { wifi := some DEFAULT_CONFIG.wifi, storage := some DEFAULT_CONFIG.storage,
    apps := some DEFAULT_CONFIG.apps, sync := none }

/-- C4, counterexample: the claim says every section missing from the
persisted file is backfilled from the defaults, so every loaded document is
fully populated.  Loading a file that lacks the `sync` section returns that
document unchanged: the section stays absent, nothing is backfilled. -/
theorem c4_no_backfill_counterexample :
    fully_populated (load_config (some pcMissingSync)) = false ∧
    (load_config (some pcMissingSync)).sync = none := by
  constructor <;> rfl

/-- C4, amended: `load_config` performs no backfilling at all.  When the file
exists its parsed content is returned as-is (missing sections stay missing);
only when no file exists does it return the default document, which does have
all four sections populated. -/
theorem c4_load_behaviour :
    (∀ d : PartialConfig, load_config (some d) = d) ∧
    fully_populated (load_config none) = true := by
  exact ⟨fun _ => rfl, rfl⟩

/-- C5: the merge writes each text field only if the submitted value is
non-empty after trimming whitespace (and then writes the trimmed value),
keeping the stored value otherwise; each checkbox field becomes true iff its
form key is present in the submission. -/
theorem c5_merge_semantics (cfg : Config) (form : Form) :
    ((merge_form cfg form).wifi.ssid =
      if py_strip (formGet form "wifi_ssid") = "" then cfg.wifi.ssid
      else py_strip (formGet form "wifi_ssid")) ∧
    ((merge_form cfg form).wifi.password =
      if py_strip (formGet form "wifi_password") = "" then cfg.wifi.password
      else py_strip (formGet form "wifi_password")) ∧
    ((merge_form cfg form).wifi.ip =
      if py_strip (formGet form "wifi_ip") = "" then cfg.wifi.ip
      else py_strip (formGet form "wifi_ip")) ∧
    ((merge_form cfg form).storage.media_root =
      if py_strip (formGet form "media_root") = "" then cfg.storage.media_root
      else py_strip (formGet form "media_root")) ∧
    ((merge_form cfg form).sync.unraid_ip =
      if py_strip (formGet form "unraid_ip") = "" then cfg.sync.unraid_ip
      else py_strip (formGet form "unraid_ip")) ∧
    ((merge_form cfg form).sync.share_path_audio =
      if py_strip (formGet form "share_path_audio") = "" then cfg.sync.share_path_audio
      else py_strip (formGet form "share_path_audio")) ∧
    ((merge_form cfg form).sync.share_path_books =
      if py_strip (formGet form "share_path_books") = "" then cfg.sync.share_path_books
      else py_strip (formGet form "share_path_books")) ∧
    ((merge_form cfg form).apps.install_audiobookshelf =
      formHas form "install_audiobookshelf") ∧
    ((merge_form cfg form).apps.install_calibre_web =
      formHas form "install_calibre_web") ∧
    ((merge_form cfg form).sync.enable_sync = formHas form "enable_sync") := by
  exact ⟨rfl, rfl, rfl, rfl, rfl, rfl, rfl, rfl, rfl, rfl⟩

/-- C8: saving a document and loading it back yields the saved document,
section by section and hence field by field.  (YAML serialization is the
external library's contract, modelled as the identity on the structured
document.) -/
theorem c8_save_load_roundtrip (cfg : Config) :
    load_config (some (save_config_file cfg)) = toPartial cfg ∧
    (load_config (some (save_config_file cfg))).wifi = some cfg.wifi ∧
    (load_config (some (save_config_file cfg))).storage = some cfg.storage ∧
    (load_config (some (save_config_file cfg))).apps = some cfg.apps ∧
    (load_config (some (save_config_file cfg))).sync = some cfg.sync :=
  ⟨rfl, rfl, rfl, rfl, rfl⟩

/-! ## Python strings and `str.splitlines` / `"\n".join`

Text configuration files are modelled as `PyStr := List Char`.  `read_text()`
opens the file in universal-newlines mode, so by the time `splitlines` runs
the only line separator left is a line feed. -/

abbrev PyStr : Type := List Char

/-- Split on every line feed; always returns one more piece than there are
line feeds (the piece after the last one may be empty). -/
def splitOnNl : PyStr → List PyStr
  | [] => [[]]
  | c :: cs =>
    if c = '\n' then [] :: splitOnNl cs
    else
      match splitOnNl cs with
      | [] => [[c]]
      | l :: ls => (c :: l) :: ls

/-- Python `str.splitlines()`: like `splitOnNl` but without the final empty
piece a trailing line feed (or an empty string) would produce. -/
def splitlines (s : PyStr) : List PyStr :=
  if (splitOnNl s).getLast? = some [] then (splitOnNl s).dropLast else splitOnNl s

/-- Python `"\n".join(lines)`. -/
def joinNl (ls : List PyStr) : PyStr :=
  List.intercalate ['\n'] ls

/-! ## Network Config Writer (`apply_wifi_config`, lines 104-156) -/

/-- The per-line substitution of the hostapd.conf loop (lines 117-124). -/
def hostapd_line (ssid password : PyStr) (line : PyStr) : PyStr :=
  if List.isPrefixOf "ssid=".data line then "ssid=".data ++ ssid
  else if List.isPrefixOf "wpa_passphrase=".data line then "wpa_passphrase=".data ++ password
  else line

/-- The hostapd.conf rewrite (lines 114-125): substitute the two key lines,
rejoin with line feeds. -/
def hostapd_rewrite (text ssid password : PyStr) : PyStr :=
  joinNl ((splitlines text).map (hostapd_line ssid password))

/-- The `startswith("interface wlan0")` pattern of the dhcpcd loop. -/
def iface_wlan0 : PyStr := "interface wlan0".data

/-- The `startswith("interface ")` pattern ending a skipped block. -/
def iface_any : PyStr := "interface ".data

/-- The dhcpcd.conf block-removal loop (lines 141-150): drop every line from
a line starting with `interface wlan0` up to (but not including) the next
line starting with `interface `, or to the end of the file. -/
def removeWlan0Block : List PyStr → Bool → List PyStr
  | [], _ => []
  | line :: rest, skip =>
    if List.isPrefixOf iface_wlan0 line then removeWlan0Block rest true
    else if skip && List.isPrefixOf iface_any line then line :: removeWlan0Block rest false
    else if skip then removeWlan0Block rest true
    else line :: removeWlan0Block rest false

/-- The static line of the appended block, `  static ip_address={ip}/24`. -/
def static_line (ip : PyStr) : PyStr :=
  "  static ip_address=".data ++ ip ++ "/24".data

/-- The `nohook wpa_supplicant` line of the appended block. -/
def nohook_line : PyStr := "  nohook wpa_supplicant".data

/-- The block appended for wlan0 (lines 133-137), leading line feed included. -/
def dhcpcd_block (ip : PyStr) : PyStr :=
  '\n' :: iface_wlan0 ++ '\n' :: static_line ip ++ '\n' :: nohook_line ++ ['\n']

/-- The dhcpcd.conf rewrite (lines 138-152): remove any existing wlan0 block,
rejoin, append the fresh block. -/
def dhcpcd_rewrite (text ip : PyStr) : PyStr :=
  joinNl (removeWlan0Block (splitlines text) false) ++ dhcpcd_block ip

/-! ## Lemmas about `splitOnNl`, `splitlines`, `joinNl`, `removeWlan0Block` -/

theorem removeWlan0Block_nil (b : Bool) : removeWlan0Block [] b = [] := rfl

theorem removeWlan0Block_decl (line : PyStr) (rest : List PyStr) (b : Bool)
    (h : List.isPrefixOf iface_wlan0 line = true) :
    removeWlan0Block (line :: rest) b = removeWlan0Block rest true := by
  rw [removeWlan0Block]; simp [h]

theorem removeWlan0Block_keep (line : PyStr) (rest : List PyStr)
    (h : List.isPrefixOf iface_wlan0 line = false) :
    removeWlan0Block (line :: rest) false = line :: removeWlan0Block rest false := by
  rw [removeWlan0Block]; simp [h]

theorem removeWlan0Block_close (line : PyStr) (rest : List PyStr)
    (h : List.isPrefixOf iface_wlan0 line = false)
    (h2 : List.isPrefixOf iface_any line = true) :
    removeWlan0Block (line :: rest) true = line :: removeWlan0Block rest false := by
  rw [removeWlan0Block]; simp [h, h2]

theorem removeWlan0Block_drop (line : PyStr) (rest : List PyStr)
    (h : List.isPrefixOf iface_wlan0 line = false)
    (h2 : List.isPrefixOf iface_any line = false) :
    removeWlan0Block (line :: rest) true = removeWlan0Block rest true := by
  rw [removeWlan0Block]; simp [h, h2]

theorem mem_splitOnNl_no_nl (s : PyStr) : ∀ l ∈ splitOnNl s, '\n' ∉ l := by
  induction s with
  | nil => intro l hl; simp [splitOnNl] at hl; simp [hl]
  | cons c cs ih =>
    intro l hl
    by_cases hc : c = '\n'
    · simp [splitOnNl, hc] at hl
      rcases hl with h | h
      · simp [h]
      · exact ih l h
    · simp only [splitOnNl, if_neg hc] at hl
      rcases h : splitOnNl cs with _ | ⟨m, ms⟩
      · rw [h] at hl
        simp at hl
        simp only [hl, List.mem_singleton]
        exact fun h2 => hc h2.symm
      · rw [h] at hl
        rcases List.mem_cons.mp hl with h1 | h1
        · subst h1
          intro hmem
          rcases List.mem_cons.mp hmem with h2 | h2
          · exact hc h2.symm
          · exact ih m (by simp [h]) h2
        · exact ih l (by simp [h, h1])

theorem splitlines_sublist (s : PyStr) : ∀ l ∈ splitlines s, l ∈ splitOnNl s := by
  intro l hl
  unfold splitlines at hl
  split at hl
  · exact (List.dropLast_sublist _).subset hl
  · exact hl

theorem mem_splitlines_no_nl (s : PyStr) : ∀ l ∈ splitlines s, '\n' ∉ l :=
  fun l hl => mem_splitOnNl_no_nl s l (splitlines_sublist s l hl)

theorem removeWlan0Block_subset (ls : List PyStr) (b : Bool) :
    ∀ l ∈ removeWlan0Block ls b, l ∈ ls := by
  induction ls generalizing b with
  | nil => intro l hl; simp [removeWlan0Block_nil] at hl
  | cons line rest ih =>
    intro l hl
    cases hp : List.isPrefixOf iface_wlan0 line with
    | true =>
      rw [removeWlan0Block_decl line rest b hp] at hl
      exact List.mem_cons_of_mem _ (ih true l hl)
    | false =>
      cases b with
      | false =>
        rw [removeWlan0Block_keep line rest hp] at hl
        rcases List.mem_cons.mp hl with h | h
        · exact h ▸ List.mem_cons_self _ _
        · exact List.mem_cons_of_mem _ (ih false l h)
      | true =>
        cases ha : List.isPrefixOf iface_any line with
        | true =>
          rw [removeWlan0Block_close line rest hp ha] at hl
          rcases List.mem_cons.mp hl with h | h
          · exact h ▸ List.mem_cons_self _ _
          · exact List.mem_cons_of_mem _ (ih false l h)
        | false =>
          rw [removeWlan0Block_drop line rest hp ha] at hl
          exact List.mem_cons_of_mem _ (ih true l hl)

theorem removeWlan0Block_no_decl (ls : List PyStr) (b : Bool) :
    ∀ l ∈ removeWlan0Block ls b, List.isPrefixOf iface_wlan0 l = false := by
  induction ls generalizing b with
  | nil => intro l hl; simp [removeWlan0Block_nil] at hl
  | cons line rest ih =>
    intro l hl
    cases hp : List.isPrefixOf iface_wlan0 line with
    | true =>
      rw [removeWlan0Block_decl line rest b hp] at hl
      exact ih true l hl
    | false =>
      cases b with
      | false =>
        rw [removeWlan0Block_keep line rest hp] at hl
        rcases List.mem_cons.mp hl with h | h
        · exact h ▸ hp
        · exact ih false l h
      | true =>
        cases ha : List.isPrefixOf iface_any line with
        | true =>
          rw [removeWlan0Block_close line rest hp ha] at hl
          rcases List.mem_cons.mp hl with h | h
          · exact h ▸ hp
          · exact ih false l h
        | false =>
          rw [removeWlan0Block_drop line rest hp ha] at hl
          exact ih true l hl

theorem removeWlan0Block_append_clean (pre rest : List PyStr)
    (h : ∀ l ∈ pre, List.isPrefixOf iface_wlan0 l = false) :
    removeWlan0Block (pre ++ rest) false = pre ++ removeWlan0Block rest false := by
  induction pre with
  | nil => rfl
  | cons line tl ih =>
    have h1 : List.isPrefixOf iface_wlan0 line = false := h line (List.mem_cons_self _ _)
    rw [List.cons_append, removeWlan0Block_keep line (tl ++ rest) h1,
      ih (fun l hl => h l (List.mem_cons_of_mem _ hl)), List.cons_append]

theorem iface_any_prefix_of_decl (l : PyStr) (h : List.isPrefixOf iface_wlan0 l = true) :
    List.isPrefixOf iface_any l = true := by
  rw [List.isPrefixOf_iff_prefix] at h ⊢
  exact List.IsPrefix.trans (by decide) h

theorem removeWlan0Block_skip_eof (suf : List PyStr)
    (h : ∀ l ∈ suf, List.isPrefixOf iface_any l = false) :
    removeWlan0Block suf true = [] := by
  induction suf with
  | nil => rfl
  | cons line tl ih =>
    have h1 : List.isPrefixOf iface_any line = false := h line (List.mem_cons_self _ _)
    have h2 : List.isPrefixOf iface_wlan0 line = false := by
      cases hp : List.isPrefixOf iface_wlan0 line
      · rfl
      · exact absurd (iface_any_prefix_of_decl line hp) (by simp [h1])
    rw [removeWlan0Block_drop line tl h2 h1]
    exact ih (fun l hl => h l (List.mem_cons_of_mem _ hl))

theorem joinNl_nil : joinNl [] = [] := by simp [joinNl, List.intercalate]

theorem joinNl_single (a : PyStr) : joinNl [a] = a := by simp [joinNl, List.intercalate]

theorem joinNl_cons (a b : PyStr) (t : List PyStr) :
    joinNl (a :: b :: t) = a ++ '\n' :: joinNl (b :: t) := by
  simp [joinNl, List.intercalate, List.intersperse]

theorem splitOnNl_cons_nl (cs : PyStr) : splitOnNl ('\n' :: cs) = [] :: splitOnNl cs := by
  rw [splitOnNl]; simp

theorem splitOnNl_ne_nil (s : PyStr) : splitOnNl s ≠ [] := by
  cases s with
  | nil => simp [splitOnNl]
  | cons c cs =>
    rw [splitOnNl]
    split
    · simp
    · cases h : splitOnNl cs <;> simp

theorem splitOnNl_append_nl (a b : PyStr) (ha : '\n' ∉ a) :
    splitOnNl (a ++ '\n' :: b) = a :: splitOnNl b := by
  induction a with
  | nil => simp [splitOnNl_cons_nl]
  | cons c cs ih =>
    have hc : c ≠ '\n' := fun h => ha (h ▸ List.mem_cons_self _ _)
    have hcs : '\n' ∉ cs := fun h => ha (List.mem_cons_of_mem _ h)
    rw [List.cons_append, splitOnNl]
    rw [if_neg hc, ih hcs]

theorem splitOnNl_joinNl (ls : List PyStr) (rest : PyStr) (h : ∀ l ∈ ls, '\n' ∉ l) :
    splitOnNl (joinNl ls ++ '\n' :: rest) =
      (if ls = [] then [[]] else ls) ++ splitOnNl rest := by
  induction ls with
  | nil => simp [joinNl_nil, splitOnNl_cons_nl]
  | cons a tl ih =>
    have ha : '\n' ∉ a := h a (List.mem_cons_self _ _)
    cases tl with
    | nil => simp [joinNl_single, splitOnNl_append_nl a rest ha]
    | cons b t =>
      rw [joinNl_cons, List.append_assoc, List.cons_append,
        splitOnNl_append_nl a _ ha,
        ih (fun l hl => h l (List.mem_cons_of_mem _ hl))]
      simp

theorem splitlines_of_concat_empty (s : PyStr) (xs : List PyStr)
    (h : splitOnNl s = xs ++ [[]]) : splitlines s = xs := by
  unfold splitlines
  rw [h, List.getLast?_concat, List.dropLast_concat]
  simp

/-- Prefix tests only look at the first `p.length` characters, so a suffix
beyond them is irrelevant. -/
theorem isPrefixOf_append_of_le (p a x : PyStr) (h : p.length ≤ a.length) :
    List.isPrefixOf p (a ++ x) = List.isPrefixOf p a := by
  have h1 : (a ++ x).take p.length = a.take p.length := by
    rw [List.take_append_eq_append_take, Nat.sub_eq_zero_of_le h, List.take_zero,
      List.append_nil]
  rw [Bool.eq_iff_iff, List.isPrefixOf_iff_prefix, List.isPrefixOf_iff_prefix,
    List.prefix_iff_eq_take, List.prefix_iff_eq_take, h1]

theorem static_line_no_nl (ip : PyStr) (hip : '\n' ∉ ip) : '\n' ∉ static_line ip := by
  intro h
  simp only [static_line, List.append_assoc, List.mem_append] at h
  rcases h with h | h | h
  · exact (by decide : '\n' ∉ "  static ip_address=".data) h
  · exact hip h
  · exact (by decide : '\n' ∉ "/24".data) h

theorem decl_not_prefix_static (ip : PyStr) :
    List.isPrefixOf iface_wlan0 (static_line ip) = false := by
  rw [static_line, List.append_assoc, isPrefixOf_append_of_le _ _ _ (by decide)]
  decide

theorem any_not_prefix_static (ip : PyStr) :
    List.isPrefixOf iface_any (static_line ip) = false := by
  rw [static_line, List.append_assoc, isPrefixOf_append_of_le _ _ _ (by decide)]
  decide

theorem splitlines_joinNl_block (cl : List PyStr) (ip : PyStr)
    (hnl : ∀ l ∈ cl, '\n' ∉ l) (hip : '\n' ∉ ip) :
    splitlines (joinNl cl ++ dhcpcd_block ip) =
      (if cl = [] then [[]] else cl) ++ [iface_wlan0, static_line ip, nohook_line] := by
  apply splitlines_of_concat_empty
  have hblock : joinNl cl ++ dhcpcd_block ip =
      joinNl cl ++ '\n' ::
        (iface_wlan0 ++ '\n' :: (static_line ip ++ '\n' :: (nohook_line ++ ['\n']))) := by
    simp [dhcpcd_block]
  rw [hblock, splitOnNl_joinNl cl _ hnl,
    splitOnNl_append_nl iface_wlan0 _ (by decide),
    splitOnNl_append_nl (static_line ip) _ (static_line_no_nl ip hip),
    show nohook_line ++ ['\n'] = nohook_line ++ '\n' :: [] from rfl,
    splitOnNl_append_nl nohook_line [] (by decide)]
  simp [splitOnNl]

theorem removeWlan0Block_of_rewrite (text ip : PyStr) (hip : '\n' ∉ ip) :
    removeWlan0Block (splitlines (dhcpcd_rewrite text ip)) false =
      (if removeWlan0Block (splitlines text) false = [] then [[]]
       else removeWlan0Block (splitlines text) false) := by
  have hnl : ∀ l ∈ removeWlan0Block (splitlines text) false, '\n' ∉ l :=
    fun l hl => mem_splitlines_no_nl text l (removeWlan0Block_subset _ _ l hl)
  rw [dhcpcd_rewrite, splitlines_joinNl_block _ ip hnl hip]
  have hclean : ∀ l ∈ (if removeWlan0Block (splitlines text) false = [] then [[]]
      else removeWlan0Block (splitlines text) false),
      List.isPrefixOf iface_wlan0 l = false := by
    intro l hl
    split at hl
    · simp at hl
      subst hl
      decide
    · exact removeWlan0Block_no_decl _ _ l hl
  rw [removeWlan0Block_append_clean _ _ hclean,
    removeWlan0Block_decl _ _ _ (by decide),
    removeWlan0Block_skip_eof]
  · simp
  · intro l hl
    rcases List.mem_cons.mp hl with h | h
    · exact h ▸ any_not_prefix_static ip
    · simp at h
      subst h
      decide

/-! ## Claim C7 -/

/-- C7: rewriting the dhcpcd static-IP config with one IP and then a second
leaves exactly one `interface wlan0` block, whose static line carries the
second IP (first conjunct: the final file splits into a prefix with no
`interface wlan0` line followed by exactly the fresh block, and the count of
`interface wlan0` lines is 1).  Second conjunct: a block whose closing
`interface ` marker never arrives is removed up to the end of the file. -/
theorem c7_dhcpcd_rewrite_twice :
    (∀ text ip1 ip2 : PyStr, '\n' ∉ ip1 → '\n' ∉ ip2 →
      ∃ pre : List PyStr,
        splitlines (dhcpcd_rewrite (dhcpcd_rewrite text ip1) ip2) =
          pre ++ [iface_wlan0, static_line ip2, nohook_line] ∧
        (∀ l ∈ pre, List.isPrefixOf iface_wlan0 l = false) ∧
        (splitlines (dhcpcd_rewrite (dhcpcd_rewrite text ip1) ip2)).countP
            (fun l => List.isPrefixOf iface_wlan0 l) = 1) ∧
    (∀ (pre : List PyStr) (d : PyStr) (suf : List PyStr),
      (∀ l ∈ pre, List.isPrefixOf iface_wlan0 l = false) →
      List.isPrefixOf iface_wlan0 d = true →
      (∀ l ∈ suf, List.isPrefixOf iface_any l = false) →
      removeWlan0Block (pre ++ d :: suf) false = pre) := by
  constructor
  · intro text ip1 ip2 hip1 hip2
    have hcl2 := removeWlan0Block_of_rewrite text ip1 hip1
    set cl1 := removeWlan0Block (splitlines text) false with hcl1def
    set pre1 := (if cl1 = [] then [[]] else cl1) with hpre1
    have hpre1nil : pre1 ≠ [] := by
      rw [hpre1]; split <;> simp_all
    have hnlpre : ∀ l ∈ pre1, '\n' ∉ l := by
      rw [← hcl2]
      exact fun l hl => mem_splitlines_no_nl _ l (removeWlan0Block_subset _ _ l hl)
    have hsplit : splitlines (dhcpcd_rewrite (dhcpcd_rewrite text ip1) ip2) =
        pre1 ++ [iface_wlan0, static_line ip2, nohook_line] := by
      have hunf : dhcpcd_rewrite (dhcpcd_rewrite text ip1) ip2 =
          joinNl (removeWlan0Block (splitlines (dhcpcd_rewrite text ip1)) false) ++
            dhcpcd_block ip2 := rfl
      rw [hunf, hcl2, splitlines_joinNl_block pre1 ip2 hnlpre hip2, if_neg hpre1nil]
    have hprecl : ∀ l ∈ pre1, List.isPrefixOf iface_wlan0 l = false := by
      intro l hl
      rw [hpre1] at hl
      split at hl
      · simp at hl
        subst hl
        decide
      · exact removeWlan0Block_no_decl _ _ l hl
    refine ⟨pre1, hsplit, hprecl, ?_⟩
    rw [hsplit, List.countP_append]
    have h0 : pre1.countP (fun l => List.isPrefixOf iface_wlan0 l) = 0 :=
      List.countP_eq_zero.mpr (fun l hl => by simp [hprecl l hl])
    rw [h0]
    simp [List.countP_cons, decl_not_prefix_static ip2]
    decide
  · intro pre d suf hpre hd hsuf
    rw [removeWlan0Block_append_clean _ _ hpre,
      removeWlan0Block_decl _ _ _ hd,
      removeWlan0Block_skip_eof _ hsuf,
      List.append_nil]

/-! ## Orchestration Manifest Generator (`generate_docker_compose`, lines 44-102)

The pure part: the list of manifest lines built from the document.  File and
directory side effects are threaded through the system state further below. -/

def generate_docker_compose_lines (cfg : Config) : List String :=
  let media_root := cfg.storage.media_root
  let base := ["version: \"3.8\"", "", "services:"]
  let abs_block :=
    if cfg.apps.install_audiobookshelf then
      ["  audiobookshelf:",
       "    image: ghcr.io/advplyr/audiobookshelf:latest",
       "    container_name: audiobookshelf",
       "    ports:",
       "      - \"13378:80\"",
       "    environment:",
       "      - TZ=America/Chicago",
       "      - AUDIOBOOKSHELF_DISABLE_UPDATES=true",
       "    volumes:",
       "      - " ++ (media_root ++ "/audiobooks:/audiobooks"),
       "      - " ++ (media_root ++ "/config/audiobookshelf:/config"),
       "    restart: unless-stopped",
       ""]
    else []
  let cweb_block :=
    if cfg.apps.install_calibre_web then
      ["  calibre-web:",
       "    image: lscr.io/linuxserver/calibre-web:latest",
       "    container_name: calibre-web",
       "    ports:",
       "      - \"8083:8083\"",
       "    environment:",
       "      - PUID=1000",
       "      - PGID=1000",
       "      - TZ=America/Chicago",
       "    volumes:",
       "      - " ++ (media_root ++ "/books:/books"),
       "      - " ++ (media_root ++ "/config/calibre:/config"),
       "    restart: unless-stopped",
       ""]
    else []
  base ++ abs_block ++ cweb_block

/-- A service entry of the manifest: one of the two two-space-indented
service keys that open a service definition. -/
def service_entry (l : String) : Bool :=
  l == "  audiobookshelf:" || l == "  calibre-web:"

/-- A string that interpolates `media_root` after a fixed prefix and before a
fixed suffix is longer than `t`, hence differs from `t`, whatever the root. -/
theorem interp_ne (a b t m : String) (h : t.length < a.length + b.length) :
    t ≠ a ++ (m ++ b) := by
  intro he
  have hlen := congrArg String.length he
  rw [String.length_append, String.length_append] at hlen
  omega

theorem interp_beq (a b t m : String) (h : t.length < a.length + b.length) :
    ((a ++ (m ++ b)) == t) = false :=
  beq_eq_false_iff_ne.mpr fun he => interp_ne a b t m h he.symm

theorem service_entry_interp (a b m : String) (h1 : (17 : Nat) < a.length + b.length)
    (h2 : (14 : Nat) < a.length + b.length) :
    service_entry (a ++ (m ++ b)) = false := by
  rw [service_entry, interp_beq a b _ m (by simpa using h1),
    interp_beq a b _ m (by simpa using h2)]
  rfl

/-! ## Claim C6 -/

/-- C6: with the audiobook flag set and the e-book flag clear the manifest
holds exactly one service entry, the audiobook one; with both flags set the
audiobook entry (line index 3) precedes the e-book entry (line index 16) and
there are exactly two service entries; and each header line appears in the
manifest iff its flag is set. -/
theorem c6_manifest_services (w : WifiCfg) (sy : SyncCfg) (m : String) (a b : Bool) :
    ((generate_docker_compose_lines ⟨w, ⟨m⟩, ⟨true, false⟩, sy⟩).countP service_entry = 1 ∧
      "  audiobookshelf:" ∈ generate_docker_compose_lines ⟨w, ⟨m⟩, ⟨true, false⟩, sy⟩ ∧
      "  calibre-web:" ∉ generate_docker_compose_lines ⟨w, ⟨m⟩, ⟨true, false⟩, sy⟩) ∧
    ((generate_docker_compose_lines ⟨w, ⟨m⟩, ⟨true, true⟩, sy⟩).get? 3 =
        some "  audiobookshelf:" ∧
      (generate_docker_compose_lines ⟨w, ⟨m⟩, ⟨true, true⟩, sy⟩).get? 16 =
        some "  calibre-web:" ∧
      (generate_docker_compose_lines ⟨w, ⟨m⟩, ⟨true, true⟩, sy⟩).countP service_entry = 2) ∧
    ("  audiobookshelf:" ∈ generate_docker_compose_lines ⟨w, ⟨m⟩, ⟨a, b⟩, sy⟩ ↔ a = true) ∧
    ("  calibre-web:" ∈ generate_docker_compose_lines ⟨w, ⟨m⟩, ⟨a, b⟩, sy⟩ ↔ b = true) := by
  refine ⟨⟨?_, ?_, ?_⟩, ⟨rfl, rfl, ?_⟩, ?_, ?_⟩
  · simp +decide [generate_docker_compose_lines, List.countP_append, List.countP_cons,
      service_entry_interp "      - " "/audiobooks:/audiobooks" m (by decide) (by decide),
      service_entry_interp "      - " "/config/audiobookshelf:/config" m (by decide) (by decide)]
  · simp [generate_docker_compose_lines]
  · simp [generate_docker_compose_lines,
      interp_ne "      - " "/audiobooks:/audiobooks" "  calibre-web:" m (by decide),
      interp_ne "      - " "/config/audiobookshelf:/config" "  calibre-web:" m (by decide)]
  · simp +decide [generate_docker_compose_lines, List.countP_append, List.countP_cons,
      service_entry_interp "      - " "/audiobooks:/audiobooks" m (by decide) (by decide),
      service_entry_interp "      - " "/config/audiobookshelf:/config" m (by decide) (by decide),
      service_entry_interp "      - " "/books:/books" m (by decide) (by decide),
      service_entry_interp "      - " "/config/calibre:/config" m (by decide) (by decide)]
  · cases a <;> cases b <;>
      simp [generate_docker_compose_lines,
        interp_ne "      - " "/books:/books" "  audiobookshelf:" m (by decide),
        interp_ne "      - " "/config/calibre:/config" "  audiobookshelf:" m (by decide)]
  · cases a <;> cases b <;>
      simp [generate_docker_compose_lines,
        interp_ne "      - " "/audiobooks:/audiobooks" "  calibre-web:" m (by decide),
        interp_ne "      - " "/config/audiobookshelf:/config" "  calibre-web:" m (by decide)]

/-! ## Sync Script Writer (`apply_sync_config`, lines 158-239) -/

/-- The shell script text rendered by `apply_sync_config` when sync is
enabled (lines 171-236); literal braces and apostrophes appear via character
escapes.  Ends with a line feed (the f-string closes right after one). -/
def sync_script_text (cfg : Config) : String :=
  let media_root := cfg.storage.media_root
  let unraid_ip := cfg.sync.unraid_ip
  let share_audio := cfg.sync.share_path_audio
  let share_books := cfg.sync.share_path_books
  String.intercalate "\n"
   ["#!/bin/bash",
    "set -euo pipefail",
    "",
    "UNRAID_IP=\"" ++ unraid_ip ++ "\"",
    "UNRAID_SHARE=\"//" ++ unraid_ip ++ "/data\"",
    "MOUNT_POINT=\"/mnt/unraid_data\"",
    "",
    "SRC_AUDIO=\"$" ++ "\x7b" ++ "MOUNT_POINT" ++ "\x7d" ++ share_audio ++ "\"",
    "SRC_BOOKS=\"$" ++ "\x7b" ++ "MOUNT_POINT" ++ "\x7d" ++ share_books ++ "\"",
    "",
    "DST_AUDIO=\"" ++ media_root ++ "/audiobooks/\"",
    "DST_BOOKS=\"" ++ media_root ++ "/books/\"",
    "",
    "CIFS_OPTS=\"guest,vers=3.0,iocharset=utf8,noperm,uid=1000,gid=1000\"",
    "",
    "LOG=\"/var/log/sync_from_unraid.log\"",
    "LOCK=\"/run/sync_from_unraid.lock\"",
    "FLAG=\"/tmp/sync_in_progress\"",
    "",
    "CARRIER_FILE=\"/sys/class/net/eth0/carrier\"",
    "if [[ ! -f \"$CARRIER_FILE\" ]] || [[ \"$(cat \"$CARRIER_FILE\" 2>/dev/null)\" != \"1\" ]]; then",
    "  exit 0",
    "fi",
    "",
    "exec 9>\"$LOCK\" || true",
    "flock -n 9 || exit 0",
    "",
    "\x7b",
    "  touch \"$FLAG\"",
    "  echo",
    "  echo \"==== $(date \x27+%F %T\x27) \u00e2\u20ac\u201d sync start ====\"",
    "",
    "  for i in " ++ "\x7b" ++ "1..5" ++ "\x7d" ++ "; do",
    "    if ping -c1 -W1 \"$UNRAID_IP\" >/dev/null 2>&1; then",
    "      break",
    "    fi",
    "    sleep 3",
    "  done",
    "",
    "  if ! mountpoint -q \"$MOUNT_POINT\"; then",
    "    echo \"Mounting $UNRAID_SHARE -> $MOUNT_POINT\"",
    "    mkdir -p \"$MOUNT_POINT\"",
    "    mount -t cifs \"$UNRAID_SHARE\" \"$MOUNT_POINT\" -o \"$CIFS_OPTS\" || " ++ "\x7b",
    "      echo \"ERROR: mount failed\"",
    "      rm -f \"$FLAG\"",
    "      exit 0",
    "    " ++ "\x7d",
    "  fi",
    "",
    "  mkdir -p \"$DST_AUDIO\" \"$DST_BOOKS\"",
    "",
    "  echo \"Syncing Audiobooks...\"",
    "  rsync -av --ignore-existing \"$SRC_AUDIO\" \"$DST_AUDIO\" || true",
    "",
    "  echo \"Syncing Calibre books...\"",
    "  rsync -av --ignore-existing \"$SRC_BOOKS\" \"$DST_BOOKS\" || true",
    "",
    "  if mountpoint -q \"$MOUNT_POINT\"; then",
    "    echo \"Unmounting $MOUNT_POINT\"",
    "    umount \"$MOUNT_POINT\" || true",
    "  fi",
    "",
    "  rm -f \"$FLAG\"",
    "  echo \"==== $(date \x27+%F %T\x27) \u00e2\u20ac\u201d sync done ====\"",
    "\x7d" ++ " >>\"$LOG\" 2>&1"] ++ "\n"

/-! ## System state and external-process outcomes

The files the program writes are modelled by their contents; `dirs` records
directories ensured to exist.  `subprocess.run(..., check=False)` inside
`try/except` swallows both nonzero exit codes and exceptions, so the outcome
of each external invocation is a parameter the handlers never inspect. -/

structure SysState where
  config_file : Option PartialConfig
  hostapd_conf : Option PyStr
  dhcpcd_conf : Option PyStr
  compose_file : Option String
  sync_script : Option String
  sync_script_mode : Option Nat
  dirs : List String
deriving DecidableEq

inductive CallOutcome where
  | completed (exitCode : Int)
  | raised
deriving DecidableEq, Repr

/-- Outcomes of the three fire-and-forget external invocations: the two
`systemctl restart` calls and the `docker compose up` call. -/
structure ExtOutcomes where
  restart_hostapd : CallOutcome
  restart_dhcpcd : CallOutcome
  compose_up : CallOutcome
deriving DecidableEq, Repr

/-- `save_config` (lines 39-42) as a state transformer. -/
def save_config (cfg : Config) (st : SysState) : SysState :=
  { st with config_file := some (save_config_file cfg) }

/-- `apply_wifi_config` (lines 104-156): each file edit is a no-op when the
file is absent; the service restarts that follow each edit are best-effort
and their outcomes are not part of the state. -/
def apply_wifi_config (cfg : Config) (st : SysState) : SysState :=
  let st1 :=
    match st.hostapd_conf with
    | none => st
    | some text =>
      { st with
        hostapd_conf := some (hostapd_rewrite text cfg.wifi.ssid.data cfg.wifi.password.data) }
  match st1.dhcpcd_conf with
  | none => st1
  | some text =>
    { st1 with dhcpcd_conf := some (dhcpcd_rewrite text cfg.wifi.ip.data) }

/-- `Path(...).mkdir(parents=True, exist_ok=True)`. -/
def ensure_dir (d : String) (dirs : List String) : List String :=
  if d ∈ dirs then dirs else dirs ++ [d]

/-- `generate_docker_compose` (lines 44-102): write the manifest under the
deployment directory, ensure the three media subdirectories exist, return
the manifest path. -/
def generate_docker_compose (cfg : Config) (st : SysState) : String × SysState :=
  let st1 := { st with
    dirs := ensure_dir "/home/pi/library-server" st.dirs,
    compose_file := some (String.intercalate "\n" (generate_docker_compose_lines cfg)) }
  let st2 := { st1 with
    dirs := ensure_dir (cfg.storage.media_root ++ "/config")
      (ensure_dir (cfg.storage.media_root ++ "/books")
        (ensure_dir (cfg.storage.media_root ++ "/audiobooks") st1.dirs)) }
  ("/home/pi/library-server/docker-compose.yml", st2)

/-- `apply_sync_config` (lines 158-239): early return when sync is disabled,
else write the script at the fixed path and mark it `0o755`. -/
def apply_sync_config (cfg : Config) (st : SysState) : SysState :=
  if cfg.sync.enable_sync = false then st
  else { st with sync_script := some (sync_script_text cfg),
                 sync_script_mode := some 0o755 }

/-! ## Web Form Controller (lines 342-387) -/

/-- `FORM_TEMPLATE` as the route handlers see it: the full HTML form built
at lines 242-340 is immediately shadowed by the re-assignment at line 342,
so the value actually rendered is the three-character placeholder. -/
def FORM_TEMPLATE : String := "..."

/-- Flask's `url_for` over this app's two endpoints. -/
def url_for (endpoint : String) : String :=
  if endpoint = "setup" then "/setup"
  else if endpoint = "index" then "/"
  else ""

/-- An HTTP response: a redirect, a rendered template over a document, or
the 500 produced by an uncaught exception. -/
inductive Response where
  | redirectTo (location : String)
  | render (template : String) (cfg : PartialConfig)
  | serverError
deriving DecidableEq

/-- The GET branch of `setup` (lines 386-387). -/
def setup_get (st : SysState) : Response :=
  Response.render FORM_TEMPLATE (load_config st.config_file)

/-- The POST branch of `setup` (lines 350-384).  Indexing a section missing
from the loaded document raises `KeyError` (no redirect); otherwise the
handler merges, saves, runs the three writers, fires `docker compose up`
(outcome ignored) and redirects. -/
def setup_post (form : Form) (_ext : ExtOutcomes) (st : SysState) :
    Response × SysState :=
  match getFull (load_config st.config_file) with
  | none => (Response.serverError, st)
  | some cfg0 =>
    let cfg := merge_form cfg0 form
    let st1 := save_config cfg st
    let st2 := apply_wifi_config cfg st1
    let st3 := apply_sync_config cfg (generate_docker_compose cfg st2).2
    (Response.redirectTo (url_for "setup"), st3)

theorem apply_wifi_config_config_file (cfg : Config) (st : SysState) :
    (apply_wifi_config cfg st).config_file = st.config_file := by
  rcases st with ⟨cf, ho, dh, co, sy, sm, di⟩
  cases ho <;> cases dh <;> rfl

theorem apply_sync_config_config_file (cfg : Config) (st : SysState) :
    (apply_sync_config cfg st).config_file = st.config_file := by
  unfold apply_sync_config
  split <;> rfl

/-! ## Claims C1, C2, C3, C9 -/

/-- C1: whenever the loaded document has its four sections (so the merge does
not raise), the POST handler persists the merged document and answers with a
redirect to `/setup`, whatever the outcomes of the external invocations
(service restarts, stack bring-up) were. -/
theorem c1_post_always_redirects (st : SysState) (form : Form) (ext : ExtOutcomes)
    (cfg : Config) (h : getFull (load_config st.config_file) = some cfg) :
    (setup_post form ext st).1 = Response.redirectTo "/setup" ∧
    (setup_post form ext st).2.config_file = some (toPartial (merge_form cfg form)) := by
  unfold setup_post
  rw [h]
  refine ⟨rfl, ?_⟩
  show (apply_sync_config (merge_form cfg form)
      (generate_docker_compose (merge_form cfg form)
        (apply_wifi_config (merge_form cfg form)
          (save_config (merge_form cfg form) st))).2).config_file = _
  rw [apply_sync_config_config_file]
  show (apply_wifi_config (merge_form cfg form)
      (save_config (merge_form cfg form) st)).config_file = _
  rw [apply_wifi_config_config_file]
  rfl

def st_witness : SysState :=
  { config_file := none, hostapd_conf := none, dhcpcd_conf := none,
    compose_file := none, sync_script := some "old script", sync_script_mode := some 0o755,
    dirs := [] }

/-- All three external invocations failing. -/
def ext_all_failed : ExtOutcomes :=
  { restart_hostapd := CallOutcome.raised, restart_dhcpcd := CallOutcome.raised,
    compose_up := CallOutcome.raised }

theorem c1_post_always_redirects_witness :
    getFull (load_config st_witness.config_file) = some DEFAULT_CONFIG ∧
    ((setup_post [] ext_all_failed st_witness).1 = Response.redirectTo "/setup" ∧
      (setup_post [] ext_all_failed st_witness).2.config_file =
        some (toPartial (merge_form DEFAULT_CONFIG []))) :=
  ⟨rfl, c1_post_always_redirects st_witness [] ext_all_failed DEFAULT_CONFIG rfl⟩

/-- `pat` occurs somewhere inside `s`. -/
def contains_sub (pat : PyStr) : PyStr → Bool
  | [] => List.isPrefixOf pat []
  | c :: rest => List.isPrefixOf pat (c :: rest) || contains_sub pat rest

/-- C2: the GET handler renders the module-final value of `FORM_TEMPLATE`,
which is the literal placeholder `...` (line 342 shadows the full form): the
response carries no input field and no `value=` attribute at all, so it is
not a form pre-populated with the document's values. -/
theorem c2_get_renders_clobbered_template (st : SysState) :
    setup_get st = Response.render "..." (load_config st.config_file) ∧
    FORM_TEMPLATE = "..." ∧
    contains_sub "<input".data FORM_TEMPLATE.data = false ∧
    contains_sub "value=".data FORM_TEMPLATE.data = false :=
  ⟨rfl, rfl, by decide, by decide⟩

/-- The `return` line of the `index` handler exactly as it stands in the
source (line 346). -/
def index_return_source : String := "    return redirect(url_for(\"setup\")"

/-- Opening minus closing parentheses of a source line. -/
def paren_delta (s : String) : Int :=
  s.data.foldl (fun n c => if c = '(' then n + 1 else if c = ')' then n - 1 else n) 0

/-- C3: the `index` handler's `return` line leaves one parenthesis open, so
the module is rejected by the parser (`SyntaxError`) and no request — in
particular no GET of `/` — is ever answered with the intended redirect. -/
theorem c3_index_line_unbalanced :
    paren_delta index_return_source = 1 ∧ paren_delta index_return_source ≠ 0 := by
  constructor
  · decide
  · decide

/-- C9: with sync disabled, the Sync Script Writer is the identity on the
whole system state: no script is created, and a pre-existing script (and its
mode) is byte-for-byte untouched. -/
theorem c9_sync_disabled_no_write (cfg : Config) (st : SysState)
    (h : cfg.sync.enable_sync = false) :
    apply_sync_config cfg st = st ∧
    (apply_sync_config cfg st).sync_script = st.sync_script := by
  unfold apply_sync_config
  rw [h]
  exact ⟨rfl, rfl⟩

theorem c9_sync_disabled_no_write_witness :
    DEFAULT_CONFIG.sync.enable_sync = false ∧
    (apply_sync_config DEFAULT_CONFIG st_witness = st_witness ∧
      (apply_sync_config DEFAULT_CONFIG st_witness).sync_script = some "old script") := by
  refine ⟨rfl, ?_⟩
  have h := c9_sync_disabled_no_write DEFAULT_CONFIG st_witness rfl
  exact ⟨h.1, by rw [h.2]; rfl⟩

theorem c7_dhcpcd_rewrite_twice_witness :
    ('\n' ∉ "1.2.3.4".data) ∧ ('\n' ∉ "10.0.0.1".data) ∧
    (∃ pre : List PyStr,
      splitlines (dhcpcd_rewrite
          (dhcpcd_rewrite "x\ninterface wlan0\n  old\ninterface eth0\ny".data
            "1.2.3.4".data) "10.0.0.1".data) =
        pre ++ [iface_wlan0, static_line "10.0.0.1".data, nohook_line] ∧
      (∀ l ∈ pre, List.isPrefixOf iface_wlan0 l = false) ∧
      (splitlines (dhcpcd_rewrite
          (dhcpcd_rewrite "x\ninterface wlan0\n  old\ninterface eth0\ny".data
            "1.2.3.4".data) "10.0.0.1".data)).countP
          (fun l => List.isPrefixOf iface_wlan0 l) = 1) ∧
    ((∀ l ∈ ["x".data], List.isPrefixOf iface_wlan0 l = false) ∧
      List.isPrefixOf iface_wlan0 "interface wlan0 here".data = true ∧
      (∀ l ∈ ["  static ip_address=1.2.3.4/24".data], List.isPrefixOf iface_any l = false) ∧
      removeWlan0Block (["x".data] ++ "interface wlan0 here".data ::
        ["  static ip_address=1.2.3.4/24".data]) false = ["x".data]) :=
  ⟨by decide, by decide,
    c7_dhcpcd_rewrite_twice.1 "x\ninterface wlan0\n  old\ninterface eth0\ny".data
      "1.2.3.4".data "10.0.0.1".data (by decide) (by decide),
    by decide, by decide, by decide,
    c7_dhcpcd_rewrite_twice.2 ["x".data] "interface wlan0 here".data
      ["  static ip_address=1.2.3.4/24".data] (by decide) (by decide) (by decide)⟩

/-! ## Claim C10: the shallow `DEFAULT_CONFIG.copy()` aliasing

`load_config` with no backing file returns `DEFAULT_CONFIG.copy()` — a new
top-level mapping whose four section values are the same `dict` objects as
the module-level defaults.  To state this, the sections live in a store
addressed by references; the POST handler's `cfg["wifi"]["ssid"] = ...`
assignments mutate the referenced objects in place. -/

structure Store where
  wifiAt : Nat → WifiCfg
  storageAt : Nat → StorageCfg
  appsAt : Nat → AppsCfg
  syncAt : Nat → SyncCfg

/-- A Python `dict` of the document's shape: four references into the store. -/
structure ConfigDict where
  wifiRef : Nat
  storageRef : Nat
  appsRef : Nat
  syncRef : Nat
deriving DecidableEq, Repr

/-- The module-level `DEFAULT_CONFIG` mapping: references to the four
default section objects, allocated at address 0 of each section store. -/
def DEFAULT_CONFIG_dict : ConfigDict :=
  { wifiRef := 0, storageRef := 0, appsRef := 0, syncRef := 0 }

/-- The interpreter heap at module load: the default section objects. -/
def initStore : Store :=
  { wifiAt := fun _ => DEFAULT_CONFIG.wifi, storageAt := fun _ => DEFAULT_CONFIG.storage,
    appsAt := fun _ => DEFAULT_CONFIG.apps, syncAt := fun _ => DEFAULT_CONFIG.sync }

/-- `dict.copy()`: a fresh top-level mapping holding the same values — for a
nested document, the same section references. -/
def dict_copy (d : ConfigDict) : ConfigDict :=
  { wifiRef := d.wifiRef, storageRef := d.storageRef,
    appsRef := d.appsRef, syncRef := d.syncRef }

/-- `load_config()` when `CONFIG_PATH` does not exist (line 37). -/
def load_config_nofile : ConfigDict :=
  dict_copy DEFAULT_CONFIG_dict

def updateAt {α : Type} (f : Nat → α) (a : Nat) (v : α) : Nat → α :=
  fun x => if x = a then v else f x

/-- The POST body's in-place assignments (lines 352-369), performed through
the loaded dict's section references. -/
def setFormFields (d : ConfigDict) (form : Form) (s : Store) : Store :=
  { wifiAt := updateAt s.wifiAt d.wifiRef (merge_wifi (s.wifiAt d.wifiRef) form)
    storageAt := updateAt s.storageAt d.storageRef (merge_storage (s.storageAt d.storageRef) form)
    appsAt := updateAt s.appsAt d.appsRef (merge_apps (s.appsAt d.appsRef) form)
    syncAt := updateAt s.syncAt d.syncRef (merge_sync (s.syncAt d.syncRef) form) }

/-- Dereference a document dict against a store. -/
def readConfig (d : ConfigDict) (s : Store) : Config :=
  { wifi := s.wifiAt d.wifiRef, storage := s.storageAt d.storageRef,
    apps := s.appsAt d.appsRef, sync := s.syncAt d.syncRef }

def exampleForm : Form := [("wifi_ssid", "Changed")]

/-- C10: with no config file, `load_config` returns a shallow copy whose
four section references are exactly `DEFAULT_CONFIG`'s; the POST handler's
in-place updates therefore mutate the module-level default sections, and a
later no-file `load_config` dereferences to the merged values — for the
example form (a changed SSID), not the documented defaults. -/
theorem c10_shallow_copy_aliases_defaults :
    (load_config_nofile = DEFAULT_CONFIG_dict ∧
      load_config_nofile.wifiRef = DEFAULT_CONFIG_dict.wifiRef ∧
      load_config_nofile.storageRef = DEFAULT_CONFIG_dict.storageRef ∧
      load_config_nofile.appsRef = DEFAULT_CONFIG_dict.appsRef ∧
      load_config_nofile.syncRef = DEFAULT_CONFIG_dict.syncRef) ∧
    (∀ form : Form,
      readConfig load_config_nofile (setFormFields load_config_nofile form initStore) =
        merge_form DEFAULT_CONFIG form ∧
      readConfig DEFAULT_CONFIG_dict (setFormFields load_config_nofile form initStore) =
        merge_form DEFAULT_CONFIG form) ∧
    readConfig load_config_nofile
        (setFormFields load_config_nofile exampleForm initStore) ≠ DEFAULT_CONFIG :=
  ⟨⟨rfl, rfl, rfl, rfl, rfl⟩, fun _ => ⟨rfl, rfl⟩, by decide⟩
